import Mathlib

/-!
Verification development for `mass_deploy_content.py`: a script that exports
one Sumo Logic content object from a source org and fans the import out to a
roster of destination orgs, granting a View permission on each.

Modelling conventions (shallow embedding):
* A Python exception is a `PyExn`: the source line it surfaced at inside the
  enclosing function (what `tb.tb_lineno` reports) plus its message text.
* The vendor SDK (`modules.sumologic.SumoLogic`) is an external collaborator;
  each of its methods is modelled as an environment field returning
  `Except String _` — the environment chooses whether a given call raises.
* The `csv` module is likewise an external collaborator; a roster file is
  modelled as the sequence of rows (lists of fields) it parses, and a file
  that cannot be opened is modelled as `none`.
* Logging calls are pure formatting over strings and cannot raise; they are
  dropped from the embedding.
-/

namespace MassDeploy

/-- Python exception as observed by the `except` blocks of the script:
the line number reported by the traceback and the `str(e)` message. -/
structure PyExn where
  lineno : Nat
  msg : String
  deriving DecidableEq, Repr

/-- Boolean success test for `Except` (used to state preconditions). -/
def exOk {ε α : Type} : Except ε α → Bool
  | Except.ok _ => true
  | Except.error _ => false

theorem exOk_iff {ε α : Type} (e : Except ε α) :
    exOk e = true ↔ ∃ a, e = Except.ok a := by
  cases e <;> simp [exOk]

/-- Content item returned by `get_content_by_path`: the script reads its
`name` and `id` fields. -/
structure ContentItem where
  name : String
  id : String
  deriving DecidableEq, Repr

/-- Exported content document: an opaque payload of which the script reads
only the `name` field (line 94). -/
structure ContentDoc where
  name : String
  payload : String
  deriving DecidableEq, Repr

/-- Value bound to the `content` variable in `main` and passed to every
deploy: either the exported document (a dict) or the Python `False`
sentinel that `export_content` returns on failure. -/
inductive ContentArg where
  | doc (c : ContentDoc)
  | fals
  deriving DecidableEq, Repr

/-- Subscript `content["name"]` (line 94): on the `False` sentinel this
raises `TypeError` because `bool` is not subscriptable. -/
def contentName : ContentArg → Except PyExn String
  | ContentArg.doc c => Except.ok c.name
  | ContentArg.fals =>
      Except.error ⟨94, "TypeError: bool object is not subscriptable"⟩

/-- Region table of `endpoint` (lines 38-54), in source order. -/
def endpoints : List (String × String) :=
  [("prod", "https://api.sumologic.com/api"),
   ("us1", "https://api.sumologic.com/api"),
   ("us2", "https://api.us2.sumologic.com/api"),
   ("eu", "https://api.eu.sumologic.com/api"),
   ("dub", "https://api.eu.sumologic.com/api"),
   ("ca", "https://api.ca.sumologic.com/api"),
   ("mon", "https://api.ca.sumologic.com/api"),
   ("de", "https://api.de.sumologic.com/api"),
   ("fra", "https://api.de.sumologic.com/api"),
   ("au", "https://api.au.sumologic.com/api"),
   ("syd", "https://api.au.sumologic.com/api"),
   ("jp", "https://api.jp.sumologic.com/api"),
   ("tky", "https://api.jp.sumologic.com/api"),
   ("in", "https://api.in.sumologic.com/api"),
   ("mum", "https://api.in.sumologic.com/api"),
   ("fed", "https://api.fed.sumologic.com/api")]

/-- Deployment codes present in the region table. -/
def deploymentCodes : List String := endpoints.map Prod.fst

/-- Region resolver `endpoint(deployment)` (line 55): a dict lookup.
`none` models the `KeyError` raised for a code absent from the table
(the failure the design calls `UnknownDeploymentError`). -/
def endpoint (deployment : String) : Option String :=
  endpoints.lookup deployment

theorem lookup_eq_none_of_not_mem_keys (l : List (String × String)) (a : String)
    (h : a ∉ l.map Prod.fst) : l.lookup a = none := by
  induction l with
  | nil => rfl
  | cons p t ih =>
      obtain ⟨k, v⟩ := p
      simp only [List.map_cons, List.mem_cons, not_or] at h
      have hk : (a == k) = false := by
        simp [h.1]
      simp [List.lookup, hk, ih h.2]

/-- Permission entry of the `contentPermissionAssignments` list built at
lines 100-103. -/
structure PermissionAssignment where
  permissionName : String
  sourceType : String
  sourceId : String
  contentId : String
  deriving DecidableEq, Repr

/-- Body sent to `add_permissions` (lines 98-106). -/
structure ExplicitPermissions where
  contentPermissionAssignments : List PermissionAssignment
  notifyRecipients : Bool
  notificationMessage : String
  deriving DecidableEq, Repr

/-- Permission structure built afresh at lines 98-106 for one deploy:
a single View assignment with the destination org as principal over the
freshly imported content id, recipients not notified. -/
def mkExplicitPermissions (org_id imported_content_id : String) :
    ExplicitPermissions :=
  { contentPermissionAssignments :=
      [{ permissionName := "View"
         sourceType := "org"
         sourceId := org_id
         contentId := imported_content_id }]
    notifyRecipients := false
    notificationMessage := "none" }

/-- One SDK call made by `import_and_share_content`, recorded with its
arguments so that theorems can talk about what was sent over the wire. -/
inductive SumoCall where
  | sumoLogic (key secret api_endpoint : String)
  | getContentByPath (path : String)
  | importContentJobSync (folderId : String) (content : ContentArg)
  | addPermissions (contentId : String) (perms : ExplicitPermissions)
  deriving DecidableEq, Repr

/-- Test for the `add_permissions` call (line 107) in a recorded trace. -/
def isAddPermissionsCall : SumoCall → Bool
  | SumoCall.addPermissions _ _ => true
  | _ => false

/-- Responses of the vendor SDK for one deploy session: each field models
one SDK method and decides whether that call raises. -/
structure DeployEnv where
  sumoLogic : String → String → String → Except String Unit
  getContentByPath : String → Except String ContentItem
  importContentJobSync : String → ContentArg → Except String Unit
  addPermissions : String → ExplicitPermissions → Except String Unit

/-- Body of the `try` block of `import_and_share_content` (lines 84-114):
runs the SDK calls in source order, stopping at the first raise, and
returns the outcome together with the trace of SDK calls issued.
Line numbers follow the source: SumoLogic constructor 85, folder lookup 86,
the import job 90, `content["name"]` subscript 94, imported-item lookup 96,
`add_permissions` 107. -/
def deployAttempt (env : DeployEnv) (org_id key secret api_endpoint
    destination_folder : String) (content : ContentArg) :
    Except PyExn Unit × List SumoCall :=
  let t0 := [SumoCall.sumoLogic key secret api_endpoint]
  match env.sumoLogic key secret api_endpoint with
  | Except.error m => (Except.error ⟨85, m⟩, t0)
  | Except.ok _ =>
    let t1 := t0 ++ [SumoCall.getContentByPath destination_folder]
    match env.getContentByPath destination_folder with
    | Except.error m => (Except.error ⟨86, m⟩, t1)
    | Except.ok destination_folder_item =>
      let destination_folder_id := destination_folder_item.id
      let t2 := t1 ++ [SumoCall.importContentJobSync destination_folder_id content]
      match env.importContentJobSync destination_folder_id content with
      | Except.error m => (Except.error ⟨90, m⟩, t2)
      | Except.ok _ =>
        match contentName content with
        | Except.error e => (Except.error e, t2)
        | Except.ok content_name =>
          let imported_content_path := destination_folder ++ "/" ++ content_name
          let t3 := t2 ++ [SumoCall.getContentByPath imported_content_path]
          match env.getContentByPath imported_content_path with
          | Except.error m => (Except.error ⟨96, m⟩, t3)
          | Except.ok imported_content_item =>
            let imported_content_id := imported_content_item.id
            let explicit_permissions :=
              mkExplicitPermissions org_id imported_content_id
            let t4 := t3 ++
              [SumoCall.addPermissions imported_content_id explicit_permissions]
            match env.addPermissions imported_content_id explicit_permissions with
            | Except.error m => (Except.error ⟨107, m⟩, t4)
            | Except.ok _ => (Except.ok (), t4)

/-- Deploy result dict returned at lines 109-114 (success) and 119-124
(failure). -/
structure DeployResult where
  org : String
  org_id : String
  endpoint : String
  status : String
  line_number : Option Nat
  exception : Option String
  deriving DecidableEq, Repr

/-- Content deployer `import_and_share_content` (lines 77-124): runs the
guarded block; any exception is caught and turned into a FAIL result with
the traceback line and message, success yields a SUCCESS result. The Lean
type is total, which mirrors the fact that the function never raises to
its caller. The SDK call trace is returned alongside the result. -/
def import_and_share_content (env : DeployEnv) (org_name org_id key secret
    api_endpoint destination_folder : String) (content : ContentArg) :
    DeployResult × List SumoCall :=
  match deployAttempt env org_id key secret api_endpoint destination_folder
      content with
  | (Except.ok _, t) =>
      ({ org := org_name, org_id := org_id, endpoint := api_endpoint
         status := "SUCCESS", line_number := none, exception := none }, t)
  | (Except.error e, t) =>
      ({ org := org_name, org_id := org_id, endpoint := api_endpoint
         status := "FAIL", line_number := some e.lineno
         exception := some e.msg }, t)

/-- Responses of the vendor SDK for the export session of `export_content`. -/
structure ExportEnv where
  sumoLogic : String → String → String → Except String Unit
  getContentByPath : String → Except String ContentItem
  exportContentJobSync : String → Except String ContentDoc

/-- Body of the `try` block of `export_content` (lines 62-70): constructor
at line 63, path lookup at 64, export job at 68. -/
def exportAttempt (env : ExportEnv) (key secret api_endpoint
    path_to_content : String) : Except PyExn ContentDoc :=
  match env.sumoLogic key secret api_endpoint with
  | Except.error m => Except.error ⟨63, m⟩
  | Except.ok _ =>
    match env.getContentByPath path_to_content with
    | Except.error m => Except.error ⟨64, m⟩
    | Except.ok content_item =>
      match env.exportContentJobSync content_item.id with
      | Except.error m => Except.error ⟨68, m⟩
      | Except.ok exported_content => Except.ok exported_content

/-- Content exporter `export_content` (lines 58-74): returns the exported
document, or the Python `False` sentinel when any step of the guarded
block raises (the exception is logged at debug level and swallowed). -/
def export_content (env : ExportEnv) (key secret api_endpoint
    path_to_content : String) : ContentArg :=
  match exportAttempt env key secret api_endpoint path_to_content with
  | Except.ok exported_content => ContentArg.doc exported_content
  | Except.error _ => ContentArg.fals

/-- Row dict produced by `csv.DictReader`: header field names paired with
the row values, in column order. -/
abbrev Row := List (String × String)

/-- Subscript `org[k]` on a row dict: `KeyError` when the column is absent
(for instance because the header was missing it). -/
def dictGet (row : Row) (k : String) : Except String String :=
  match row.lookup k with
  | some v => Except.ok v
  | none => Except.error ("KeyError: " ++ k)

/-- Roster reader `read_org_list_csv` (lines 126-134). The `csv` module is
an external collaborator, so a roster file is modelled as the rows it
parses (`none` for a file `open` cannot open, whose `OSError` propagates
out of the function uncaught). `DictReader` takes the first row as header,
skips blank rows, and zips the header with each remaining row. -/
def read_org_list_csv (file : Option (List (List String))) :
    Except String (List Row) :=
  match file with
  | none => Except.error "FileNotFoundError: no such file or directory"
  | some [] => Except.ok []
  | some (header :: rows) =>
      Except.ok ((rows.filter (fun r => !r.isEmpty)).map
        (fun r => header.zip r))

/-- Expected roster header (see the `-orgFile` help text, line 143). -/
def rosterHeader : List String :=
  ["orgName", "orgID", "deployment", "key", "secret"]

/-- Data row holding one organization record's five field values, in
header order. -/
def rowOf (o : String × String × String × String × String) : List String :=
  [o.1, o.2.1, o.2.2.1, o.2.2.2.1, o.2.2.2.2]

/-- Roster file with the expected header, one row per organization record. -/
def writeRoster (orgs : List (String × String × String × String × String)) :
    List (List String) :=
  rosterHeader :: orgs.map rowOf

/-- Row dict that `DictReader` yields for one organization record written
with the expected header. -/
def orgToRow (o : String × String × String × String × String) : Row :=
  [("orgName", o.1), ("orgID", o.2.1), ("deployment", o.2.2.1),
   ("key", o.2.2.2.1), ("secret", o.2.2.2.2)]

/-- Arguments with which one deploy task is submitted to the pool
(lines 155-163), after the endpoint was resolved. -/
structure SubmittedTask where
  orgName : String
  orgID : String
  key : String
  secret : String
  url : String
  deriving DecidableEq, Repr

/-- Evaluation done in the submission loop body for one org (lines
154-163): the dict subscripts of the logging line and of the `submit`
arguments, then the `endpoint` dict lookup, any of which can raise
`KeyError`. This all happens in the caller thread, before any deploy work
for that org. -/
def submitOrg (org : Row) : Except PyExn SubmittedTask :=
  match dictGet org "orgName" with
  | Except.error m => Except.error ⟨154, m⟩
  | Except.ok _ =>
    match dictGet org "orgName" with
    | Except.error m => Except.error ⟨157, m⟩
    | Except.ok orgName =>
      match dictGet org "orgID" with
      | Except.error m => Except.error ⟨158, m⟩
      | Except.ok orgID =>
        match dictGet org "key" with
        | Except.error m => Except.error ⟨159, m⟩
        | Except.ok key =>
          match dictGet org "secret" with
          | Except.error m => Except.error ⟨160, m⟩
          | Except.ok secret =>
            match dictGet org "deployment" with
            | Except.error m => Except.error ⟨161, m⟩
            | Except.ok deployment =>
              match endpoint deployment with
              | none => Except.error ⟨161, "KeyError: " ++ deployment⟩
              | some url => Except.ok ⟨orgName, orgID, key, secret, url⟩

/-- Submission loop of `parallel_runner` (lines 153-163): submits one task
per org in roster order. When an org raises during submission, the loop
stops there; the error carries the tasks already submitted, because those
threads still run to completion inside the executor even though their
results are never retrieved. -/
def submitAll : List Row →
    Except (PyExn × List (Row × SubmittedTask)) (List (Row × SubmittedTask))
  | [] => Except.ok []
  | org :: rest =>
    match submitOrg org with
    | Except.error e => Except.error (e, [])
    | Except.ok task =>
      match submitAll rest with
      | Except.ok tasks => Except.ok ((org, task) :: tasks)
      | Except.error (e, tasks) => Except.error (e, (org, task) :: tasks)

/-- Execution of one submitted deploy task: the thread body of line 155.
The environment is keyed by the org row so different orgs may succeed or
fail independently. -/
def runTask (envOf : Row → DeployEnv) (destination_folder : String)
    (content : ContentArg) (org : Row) (task : SubmittedTask) : DeployResult :=
  (import_and_share_content (envOf org) task.orgName task.orgID task.key
    task.secret task.url destination_folder content).1

/-- Outcome of `parallel_runner`: either every task was submitted and its
result collected by the `as_completed` loop, or submission raised after
some tasks had already been submitted — those still executed, but their
results were never retrieved, and no task was submitted for the remaining
orgs. Completion order is abstracted to submission order; the spec
guarantees no ordering across organizations. -/
inductive RunnerOutcome where
  | ok (results : List DeployResult)
  | failed (exn : PyExn) (executed : List DeployResult)
  deriving DecidableEq, Repr

/-- Deploy results actually produced by a run of the fan-out, whether or
not the runner itself finished cleanly. -/
def producedResults : RunnerOutcome → List DeployResult
  | RunnerOutcome.ok results => results
  | RunnerOutcome.failed _ executed => executed

/-- Collected results the `as_completed` loop (lines 165-166) sees: one per
task, in the order the tasks finished (here: submission order). -/
def collectResults (envOf : Row → DeployEnv) (destination_folder : String)
    (content : ContentArg) (tasks : List (Row × SubmittedTask)) :
    List DeployResult :=
  tasks.map (fun p => runTask envOf destination_folder content p.1 p.2)

/-- Fan-out runner `parallel_runner` (lines 148-166): submits one deploy
per roster row, then drains completions. A raise during submission
propagates out of the `with` block after the already-submitted tasks
finish. -/
def parallel_runner (envOf : Row → DeployEnv) (org_list : List Row)
    (destination_folder : String) (content : ContentArg) : RunnerOutcome :=
  match submitAll org_list with
  | Except.ok tasks =>
      RunnerOutcome.ok (collectResults envOf destination_folder content tasks)
  | Except.error (e, tasks) =>
      RunnerOutcome.failed e
        (collectResults envOf destination_folder content tasks)

/-- External state `main` runs against: the roster file, the SDK responses
for the export session, and the SDK responses for each org's deploy
session. -/
structure MainEnv where
  rosterFile : Option (List (List String))
  exportEnv : ExportEnv
  deployEnvOf : Row → DeployEnv

/-- Parsed command-line arguments (`process_arguments`, lines 136-145);
`-orgFile` is represented by `MainEnv.rosterFile`. -/
structure Args where
  key : String
  secret : String
  deployment : String
  sourcePath : String
  destPath : String

/-- Main flow (lines 184-191): read the roster, resolve the source
endpoint, export the content, then unconditionally fan out — the export
result is never checked before `parallel_runner` is invoked. -/
def main (env : MainEnv) (args : Args) : Except PyExn RunnerOutcome :=
  match read_org_list_csv env.rosterFile with
  | Except.error m => Except.error ⟨188, m⟩
  | Except.ok org_list =>
    match endpoint args.deployment with
    | none => Except.error ⟨189, "KeyError: " ++ args.deployment⟩
    | some src_endpoint =>
      let content := export_content env.exportEnv args.key args.secret
        src_endpoint args.sourcePath
      Except.ok (parallel_runner env.deployEnvOf org_list args.destPath content)

/-! Concrete environments and rows used by witnesses. -/

/-- SDK responses where every call succeeds. -/
def trivialDeployEnv : DeployEnv :=
  { sumoLogic := fun _ _ _ => Except.ok ()
    getContentByPath := fun _ => Except.ok ⟨"item", "0000000000A1B2C3"⟩
    importContentJobSync := fun _ _ => Except.ok ()
    addPermissions := fun _ _ => Except.ok () }

/-- SDK responses where the session constructor raises (bad credentials). -/
def failingDeployEnv : DeployEnv :=
  { sumoLogic := fun _ _ _ => Except.error "401 unauthorized"
    getContentByPath := fun _ => Except.ok ⟨"item", "0000000000A1B2C3"⟩
    importContentJobSync := fun _ _ => Except.ok ()
    addPermissions := fun _ _ => Except.ok () }

/-- Export session whose first SDK call raises (bad credentials). -/
def failingExportEnv : ExportEnv :=
  { sumoLogic := fun _ _ _ => Except.error "401 unauthorized"
    getContentByPath := fun _ => Except.error "404 not found"
    exportContentJobSync := fun _ => Except.error "404 not found" }

/-- Roster row with every required column and a known deployment. -/
def goodRow : Row :=
  [("orgName", "beta"), ("orgID", "0000000000000002"),
   ("deployment", "us2"), ("key", "k2"), ("secret", "s2")]

/-- Second well-formed roster row, on another deployment. -/
def goodRow2 : Row :=
  [("orgName", "gamma"), ("orgID", "0000000000000003"),
   ("deployment", "eu"), ("key", "k3"), ("secret", "s3")]

/-- Roster row whose deployment code "zz" is not in the region table. -/
def badRow : Row :=
  [("orgName", "acme"), ("orgID", "0000000000000001"),
   ("deployment", "zz"), ("key", "k1"), ("secret", "s1")]

/-- Deploy environment family under which beta succeeds and every other
org fails at the session constructor. -/
def mixedEnvOf : Row → DeployEnv := fun org =>
  match dictGet org "orgName" with
  | Except.ok "beta" => trivialDeployEnv
  | _ => failingDeployEnv

/-! Claim theorems. -/

/-- C3: for every deployment code in the fixed region table the region
resolver `endpoint` returns a non-empty URL; for every code not in the
table it fails (`KeyError`, the design's `UnknownDeploymentError`),
modelled as `none`. -/
theorem endpoint_region_table_contract (code : String) :
    (code ∈ deploymentCodes → ∃ url, endpoint code = some url ∧ url ≠ "") ∧
    (code ∉ deploymentCodes → endpoint code = none) := by
  constructor
  · intro hc
    fin_cases hc <;> exact ⟨_, rfl, by decide⟩
  · intro hc
    exact lookup_eq_none_of_not_mem_keys endpoints code
      (by simpa [deploymentCodes] using hc)

/-- Witness for C3 at the code "us2" (in the table) and the code "zz"
(not in the table). -/
theorem endpoint_region_table_contract_witness :
    (∃ url, endpoint "us2" = some url ∧ url ≠ "") ∧ endpoint "zz" = none :=
  ⟨(endpoint_region_table_contract "us2").1 (by decide),
   (endpoint_region_table_contract "zz").2 (by decide)⟩

/-- C4: whenever any underlying API call of the export raises, the content
exporter `export_content` returns the falsy sentinel instead of raising
(its Lean type is total, mirroring the catch-all); when no call raises it
returns the exported content document. -/
theorem export_content_sentinel_on_failure (env : ExportEnv)
    (key secret api_endpoint path_to_content : String) :
    (∃ d, exportAttempt env key secret api_endpoint path_to_content =
        Except.ok d ∧
      export_content env key secret api_endpoint path_to_content =
        ContentArg.doc d) ∨
    (∃ e, exportAttempt env key secret api_endpoint path_to_content =
        Except.error e ∧
      export_content env key secret api_endpoint path_to_content =
        ContentArg.fals) := by
  rcases h : exportAttempt env key secret api_endpoint path_to_content with e | d
  · exact Or.inr ⟨e, rfl, by simp [export_content, h]⟩
  · exact Or.inl ⟨d, rfl, by simp [export_content, h]⟩

/-- C2: the content deployer `import_and_share_content` always returns a
complete deploy result and never raises (totality of its Lean type): when
some step of the guarded block raises it returns a FAIL result carrying
the non-null traceback line and exception message, and when no step
raises it returns a SUCCESS result with both fields null. -/
theorem import_and_share_content_total (env : DeployEnv)
    (org_name org_id key secret api_endpoint destination_folder : String)
    (content : ContentArg) :
    (∃ t, deployAttempt env org_id key secret api_endpoint destination_folder
        content = (Except.ok (), t) ∧
      import_and_share_content env org_name org_id key secret api_endpoint
        destination_folder content =
        ({ org := org_name, org_id := org_id, endpoint := api_endpoint
           status := "SUCCESS", line_number := none, exception := none }, t)) ∨
    (∃ e t, deployAttempt env org_id key secret api_endpoint destination_folder
        content = (Except.error e, t) ∧
      import_and_share_content env org_name org_id key secret api_endpoint
        destination_folder content =
        ({ org := org_name, org_id := org_id, endpoint := api_endpoint
           status := "FAIL", line_number := some e.lineno
           exception := some e.msg }, t)) := by
  rcases h : deployAttempt env org_id key secret api_endpoint
      destination_folder content with ⟨r, t⟩
  cases r with
  | ok u =>
      refine Or.inl ⟨t, rfl, ?_⟩
      simp [import_and_share_content, h]
  | error e =>
      refine Or.inr ⟨e, t, rfl, ?_⟩
      simp [import_and_share_content, h]

/-- C9: invoked with the falsy export-failure sentinel as content, the
deployer never raises and always returns a FAIL result with a non-null
exception message — whatever the SDK does, the guarded block cannot
complete, because the `content["name"]` subscript at line 94 raises
`TypeError` on the sentinel. -/
theorem import_with_sentinel_fails_closed (env : DeployEnv)
    (org_name org_id key secret api_endpoint destination_folder : String) :
    (import_and_share_content env org_name org_id key secret api_endpoint
        destination_folder ContentArg.fals).1.status = "FAIL" ∧
    (import_and_share_content env org_name org_id key secret api_endpoint
        destination_folder ContentArg.fals).1.exception.isSome = true ∧
    contentName ContentArg.fals =
      Except.error ⟨94, "TypeError: bool object is not subscriptable"⟩ := by
  refine ?_
  have hmain : (import_and_share_content env org_name org_id key secret
      api_endpoint destination_folder ContentArg.fals).1.status = "FAIL" ∧
      (import_and_share_content env org_name org_id key secret api_endpoint
        destination_folder ContentArg.fals).1.exception.isSome = true := by
    rcases h1 : env.sumoLogic key secret api_endpoint with m | u
    · simp [import_and_share_content, deployAttempt, h1]
    · rcases h2 : env.getContentByPath destination_folder with m | item
      · simp [import_and_share_content, deployAttempt, h1, h2]
      · rcases h3 : env.importContentJobSync item.id ContentArg.fals with m | u2
        · simp [import_and_share_content, deployAttempt, h1, h2, h3]
        · simp [import_and_share_content, deployAttempt, h1, h2, h3,
            contentName]
  exact ⟨hmain.1, hmain.2, rfl⟩

/-- C8: on every successful deploy, the SDK call trace contains exactly one
`add_permissions` call, and the structure it sends is the single-entry
assignment built at lines 98-106 from this deploy's own org id and the
freshly imported content id: permission View, principal the destination
org (sourceType org, sourceId the org id), recipient notification
suppressed. -/
theorem success_sends_single_view_permission (env : DeployEnv)
    (org_name org_id key secret api_endpoint destination_folder : String)
    (content : ContentArg)
    (h : (import_and_share_content env org_name org_id key secret api_endpoint
        destination_folder content).1.status = "SUCCESS") :
    ∃ content_name item,
      contentName content = Except.ok content_name ∧
      env.getContentByPath (destination_folder ++ "/" ++ content_name) =
        Except.ok item ∧
      (import_and_share_content env org_name org_id key secret api_endpoint
        destination_folder content).2.filter isAddPermissionsCall =
        [SumoCall.addPermissions item.id
          (mkExplicitPermissions org_id item.id)] ∧
      mkExplicitPermissions org_id item.id =
        { contentPermissionAssignments :=
            [{ permissionName := "View", sourceType := "org"
               sourceId := org_id, contentId := item.id }]
          notifyRecipients := false
          notificationMessage := "none" } := by
  rcases h1 : env.sumoLogic key secret api_endpoint with m | u
  · simp [import_and_share_content, deployAttempt, h1] at h
  · rcases h2 : env.getContentByPath destination_folder with m | item
    · simp [import_and_share_content, deployAttempt, h1, h2] at h
    · rcases h3 : env.importContentJobSync item.id content with m | u2
      · simp [import_and_share_content, deployAttempt, h1, h2, h3] at h
      · rcases hcn : contentName content with e | content_name
        · simp [import_and_share_content, deployAttempt, h1, h2, h3, hcn] at h
        · rcases h4 : env.getContentByPath
              (destination_folder ++ "/" ++ content_name) with m | item2
          · simp [import_and_share_content, deployAttempt, h1, h2, h3, hcn,
              h4] at h
          · rcases h5 : env.addPermissions item2.id
                (mkExplicitPermissions org_id item2.id) with m | u3
            · simp [import_and_share_content, deployAttempt, h1, h2, h3, hcn,
                h4, h5] at h
            · refine ⟨content_name, item2, rfl, h4, ?_, rfl⟩
              simp [import_and_share_content, deployAttempt, h1, h2, h3, hcn,
                h4, h5, isAddPermissionsCall]

/-- Witness for C8: a deploy against the all-succeeding environment. -/
theorem success_sends_single_view_permission_witness :
    ∃ content_name item,
      contentName (ContentArg.doc ⟨"n", "p"⟩) = Except.ok content_name ∧
      trivialDeployEnv.getContentByPath ("/d" ++ "/" ++ content_name) =
        Except.ok item ∧
      (import_and_share_content trivialDeployEnv "o" "1" "k" "s" "e" "/d"
        (ContentArg.doc ⟨"n", "p"⟩)).2.filter isAddPermissionsCall =
        [SumoCall.addPermissions item.id (mkExplicitPermissions "1" item.id)] ∧
      mkExplicitPermissions "1" item.id =
        { contentPermissionAssignments :=
            [{ permissionName := "View", sourceType := "org"
               sourceId := "1", contentId := item.id }]
          notifyRecipients := false
          notificationMessage := "none" } :=
  success_sends_single_view_permission trivialDeployEnv "o" "1" "k" "s" "e"
    "/d" (ContentArg.doc ⟨"n", "p"⟩) rfl

theorem roster_rows_roundtrip
    (orgs : List (String × String × String × String × String)) :
    ((orgs.map rowOf).filter (fun r => !r.isEmpty)).map
        (fun r => rosterHeader.zip r) = orgs.map orgToRow := by
  induction orgs with
  | nil => rfl
  | cons o t ih => simp_all [rowOf, rosterHeader, orgToRow]

/-- C6: round-trip — a roster file with the expected header and N data
rows read back through `read_org_list_csv` yields exactly N records, in
file order, each field value recoverable verbatim by its column name. -/
theorem read_org_list_csv_roundtrip
    (orgs : List (String × String × String × String × String)) :
    read_org_list_csv (some (writeRoster orgs)) =
      Except.ok (orgs.map orgToRow) ∧
    (orgs.map orgToRow).length = orgs.length ∧
    ∀ o ∈ orgs,
      dictGet (orgToRow o) "orgName" = Except.ok o.1 ∧
      dictGet (orgToRow o) "orgID" = Except.ok o.2.1 ∧
      dictGet (orgToRow o) "deployment" = Except.ok o.2.2.1 ∧
      dictGet (orgToRow o) "key" = Except.ok o.2.2.2.1 ∧
      dictGet (orgToRow o) "secret" = Except.ok o.2.2.2.2 := by
  refine ⟨?_, by simp, ?_⟩
  · simp [read_org_list_csv, writeRoster, roster_rows_roundtrip]
  · intro o _
    simp [dictGet, orgToRow, List.lookup]

/-- Witness for C6: the round-trip at a concrete two-org roster. -/
theorem read_org_list_csv_roundtrip_witness :
    read_org_list_csv (some (writeRoster
        [("beta", "0000000000000002", "us2", "k2", "s2"),
         ("gamma", "0000000000000003", "eu", "k3", "s3")])) =
      Except.ok ([("beta", "0000000000000002", "us2", "k2", "s2"),
         ("gamma", "0000000000000003", "eu", "k3", "s3")].map orgToRow) ∧
    ([("beta", "0000000000000002", "us2", "k2", "s2"),
      ("gamma", "0000000000000003", "eu", "k3", "s3")].map orgToRow).length =
      [("beta", "0000000000000002", "us2", "k2", "s2"),
       ("gamma", "0000000000000003", "eu", "k3", "s3")].length ∧
    ∀ o ∈ [("beta", "0000000000000002", "us2", "k2", "s2"),
           ("gamma", "0000000000000003", "eu", "k3", "s3")],
      dictGet (orgToRow o) "orgName" = Except.ok o.1 ∧
      dictGet (orgToRow o) "orgID" = Except.ok o.2.1 ∧
      dictGet (orgToRow o) "deployment" = Except.ok o.2.2.1 ∧
      dictGet (orgToRow o) "key" = Except.ok o.2.2.2.1 ∧
      dictGet (orgToRow o) "secret" = Except.ok o.2.2.2.2 :=
  read_org_list_csv_roundtrip
    [("beta", "0000000000000002", "us2", "k2", "s2"),
     ("gamma", "0000000000000003", "eu", "k3", "s3")]

/-- Counterexample for C7: a roster file whose header is missing the
required columns deployment, key and secret is read back without any
failure — `read_org_list_csv` returns its rows as records instead of
raising. -/
theorem read_org_list_csv_missing_columns_cex :
    exOk (read_org_list_csv (some [["orgName", "orgID"], ["acme", "123"]]))
      = true ∧
    read_org_list_csv (some [["orgName", "orgID"], ["acme", "123"]]) =
      Except.ok [[("orgName", "acme"), ("orgID", "123")]] :=
  ⟨rfl, rfl⟩

/-- C7 as amended: `read_org_list_csv` fails (the `open` error propagates)
whenever the roster file cannot be opened, and never otherwise — a header
missing required columns is not detected by the reader; the missing
fields only fail later, as `KeyError`, when the submission loop reads
them (here at the `key` subscript, line 159). -/
theorem read_org_list_csv_fail_modes :
    read_org_list_csv none =
      Except.error "FileNotFoundError: no such file or directory" ∧
    (∀ rfile : List (List String),
      exOk (read_org_list_csv (some rfile)) = true) ∧
    submitOrg [("orgName", "acme"), ("orgID", "123")] =
      Except.error ⟨159, "KeyError: key"⟩ := by
  refine ⟨rfl, ?_, rfl⟩
  intro rfile
  cases rfile <;> rfl

theorem submitAll_ok_of_forall (l : List Row)
    (h : ∀ org ∈ l, exOk (submitOrg org) = true) :
    ∃ tasks, submitAll l = Except.ok tasks ∧
      List.Forall₂ (fun org (p : Row × SubmittedTask) =>
        p.1 = org ∧ submitOrg org = Except.ok p.2) l tasks := by
  induction l with
  | nil => exact ⟨[], rfl, List.Forall₂.nil⟩
  | cons org rest ih =>
      obtain ⟨t, ht⟩ := (exOk_iff _).1 (h org (by simp))
      obtain ⟨tasks, hts, hfa⟩ := ih (fun o ho => h o (by simp [ho]))
      exact ⟨(org, t) :: tasks, by simp [submitAll, ht, hts],
        List.Forall₂.cons ⟨rfl, ht⟩ hfa⟩

theorem submitAll_append_error (pre post : List Row) (bad : Row) (e : PyExn)
    (hpre : ∀ org ∈ pre, exOk (submitOrg org) = true)
    (hbad : submitOrg bad = Except.error e) :
    ∃ tasks, submitAll (pre ++ bad :: post) = Except.error (e, tasks) ∧
      List.Forall₂ (fun org (p : Row × SubmittedTask) =>
        p.1 = org ∧ submitOrg org = Except.ok p.2) pre tasks := by
  induction pre with
  | nil => exact ⟨[], by simp [submitAll, hbad], List.Forall₂.nil⟩
  | cons org rest ih =>
      obtain ⟨t, ht⟩ := (exOk_iff _).1 (hpre org (by simp))
      obtain ⟨tasks, hts, hfa⟩ := ih (fun o ho => hpre o (by simp [ho]))
      exact ⟨(org, t) :: tasks, by simp [submitAll, ht, hts],
        List.Forall₂.cons ⟨rfl, ht⟩ hfa⟩

theorem forall₂_collectResults (envOf : Row → DeployEnv)
    (destination_folder : String) (content : ContentArg) (l : List Row)
    (tasks : List (Row × SubmittedTask))
    (hfa : List.Forall₂ (fun org (p : Row × SubmittedTask) =>
      p.1 = org ∧ submitOrg org = Except.ok p.2) l tasks) :
    List.Forall₂ (fun org r => ∃ t, submitOrg org = Except.ok t ∧
        r = runTask envOf destination_folder content org t) l
      (collectResults envOf destination_folder content tasks) := by
  simp only [collectResults]
  rw [List.forall₂_map_right_iff]
  exact hfa.imp (fun a b hab => ⟨b.2, hab.2, by rw [hab.1]⟩)

/-- Counterexample for C1: a roster of one record whose deployment code is
not in the region table makes the fan-out runner produce zero deploy
results — one record in, no result out, so the unconditional cardinality
claim fails. -/
theorem parallel_runner_drops_record_cex :
    parallel_runner (fun _ => trivialDeployEnv) [badRow] "/Library/dest"
        ContentArg.fals =
      RunnerOutcome.failed ⟨161, "KeyError: zz"⟩ [] ∧
    (producedResults (parallel_runner (fun _ => trivialDeployEnv) [badRow]
        "/Library/dest" ContentArg.fals)).length = 0 ∧
    [badRow].length = 1 :=
  ⟨rfl, rfl, rfl⟩

/-- C1 as amended: provided every roster record survives submission (all
required columns present and its deployment code in the region table),
`parallel_runner` on M records produces exactly M deploy results, one per
record in order — no record dropped or duplicated — regardless of how
many of the per-org deploys succeed or fail (each result is whatever
`import_and_share_content` returned for that record, SUCCESS or FAIL). -/
theorem parallel_runner_one_result_per_record (envOf : Row → DeployEnv)
    (org_list : List Row) (destination_folder : String) (content : ContentArg)
    (h : ∀ org ∈ org_list, exOk (submitOrg org) = true) :
    ∃ results,
      parallel_runner envOf org_list destination_folder content =
        RunnerOutcome.ok results ∧
      results.length = org_list.length ∧
      List.Forall₂ (fun org r => ∃ t, submitOrg org = Except.ok t ∧
        r = runTask envOf destination_folder content org t) org_list results := by
  obtain ⟨tasks, hts, hfa⟩ := submitAll_ok_of_forall org_list h
  refine ⟨collectResults envOf destination_folder content tasks, ?_, ?_, ?_⟩
  · simp [parallel_runner, hts]
  · simpa [collectResults] using hfa.length_eq.symm
  · exact forall₂_collectResults envOf destination_folder content org_list
      tasks hfa

/-- Witness for C1 (amended): two well-formed records, one deploying
successfully and one failing at the SDK, still give two results. -/
theorem parallel_runner_one_result_per_record_witness :
    ∃ results,
      parallel_runner mixedEnvOf [goodRow, goodRow2] "/d"
        (ContentArg.doc ⟨"n", "p"⟩) = RunnerOutcome.ok results ∧
      results.length = [goodRow, goodRow2].length ∧
      List.Forall₂ (fun org r => ∃ t, submitOrg org = Except.ok t ∧
        r = runTask mixedEnvOf "/d" (ContentArg.doc ⟨"n", "p"⟩) org t)
        [goodRow, goodRow2] results :=
  parallel_runner_one_result_per_record mixedEnvOf [goodRow, goodRow2] "/d"
    (ContentArg.doc ⟨"n", "p"⟩) (by decide)

/-- C10: a roster record whose deployment code is absent from the region
table makes the submission loop raise `KeyError` while resolving that
org's endpoint, before any deploy work for that org; the error propagates
out of `parallel_runner`, and only the records submitted before it ever
execute a deploy — neither the offending record nor any later record
yields a deploy result. -/
theorem unknown_deployment_aborts_runner (envOf : Row → DeployEnv)
    (pre post : List Row) (bad : Row) (destination_folder : String)
    (content : ContentArg) (nm oid ky sec dep : String)
    (h1 : dictGet bad "orgName" = Except.ok nm)
    (h2 : dictGet bad "orgID" = Except.ok oid)
    (h3 : dictGet bad "key" = Except.ok ky)
    (h4 : dictGet bad "secret" = Except.ok sec)
    (h5 : dictGet bad "deployment" = Except.ok dep)
    (h6 : endpoint dep = none)
    (hpre : ∀ org ∈ pre, exOk (submitOrg org) = true) :
    ∃ executed,
      parallel_runner envOf (pre ++ bad :: post) destination_folder content =
        RunnerOutcome.failed ⟨161, "KeyError: " ++ dep⟩ executed ∧
      executed.length = pre.length ∧
      List.Forall₂ (fun org r => ∃ t, submitOrg org = Except.ok t ∧
        r = runTask envOf destination_folder content org t) pre executed := by
  have hbad : submitOrg bad = Except.error ⟨161, "KeyError: " ++ dep⟩ := by
    simp [submitOrg, h1, h2, h3, h4, h5, h6]
  obtain ⟨tasks, hts, hfa⟩ := submitAll_append_error pre post bad _ hpre hbad
  refine ⟨collectResults envOf destination_folder content tasks, ?_, ?_, ?_⟩
  · simp [parallel_runner, hts]
  · simpa [collectResults] using hfa.length_eq.symm
  · exact forall₂_collectResults envOf destination_folder content pre tasks hfa

/-- Witness for C10: roster beta, acme (deployment "zz"), gamma — only
beta's task is submitted and executed. -/
theorem unknown_deployment_aborts_runner_witness :
    ∃ executed,
      parallel_runner (fun _ => trivialDeployEnv)
          ([goodRow] ++ badRow :: [goodRow2]) "/d" ContentArg.fals =
        RunnerOutcome.failed ⟨161, "KeyError: " ++ "zz"⟩ executed ∧
      executed.length = [goodRow].length ∧
      List.Forall₂ (fun org r => ∃ t, submitOrg org = Except.ok t ∧
        r = runTask (fun _ => trivialDeployEnv) "/d" ContentArg.fals org t)
        [goodRow] executed :=
  unknown_deployment_aborts_runner (fun _ => trivialDeployEnv) [goodRow]
    [goodRow2] badRow "/d" ContentArg.fals "acme" "0000000000000001" "k1"
    "s1" "zz" rfl rfl rfl rfl rfl rfl (by decide)

/-- C5: `main` never checks the exporter's result — when the export fails
and `export_content` hands back the falsy sentinel, `main` still invokes
the fan-out runner over every roster record with that sentinel as the
content argument. -/
theorem main_ignores_export_failure (env : MainEnv) (args : Args)
    (org_list : List Row) (src_endpoint : String) (e : PyExn)
    (hroster : read_org_list_csv env.rosterFile = Except.ok org_list)
    (hdep : endpoint args.deployment = some src_endpoint)
    (hexport : exportAttempt env.exportEnv args.key args.secret src_endpoint
        args.sourcePath = Except.error e) :
    main env args = Except.ok (parallel_runner env.deployEnvOf org_list
      args.destPath ContentArg.fals) := by
  simp [main, hroster, hdep, export_content, hexport]

/-- Roster, arguments and environments of the C5 witness run. -/
def demoMainEnv : MainEnv :=
  { rosterFile :=
      some (writeRoster [("beta", "0000000000000002", "us2", "k2", "s2")])
    exportEnv := failingExportEnv
    deployEnvOf := fun _ => trivialDeployEnv }

/-- Command-line arguments of the C5 witness run. -/
def demoArgs : Args :=
  { key := "k", secret := "s", deployment := "us2"
    sourcePath := "/Library/src", destPath := "/Library/dest" }

/-- Witness for C5: with a one-org roster and an export session whose
first call raises, `main` fans out with the sentinel. -/
theorem main_ignores_export_failure_witness :
    main demoMainEnv demoArgs = Except.ok (parallel_runner
      demoMainEnv.deployEnvOf [goodRow] demoArgs.destPath ContentArg.fals) :=
  main_ignores_export_failure demoMainEnv demoArgs [goodRow]
    "https://api.us2.sumologic.com/api" ⟨63, "401 unauthorized"⟩ rfl rfl rfl

end MassDeploy
